import Mathlib

/-!
Shallow embedding of the `crm_sync` package (citadel-crm sync script) and
proofs about its identity-normalization, sync-state, and three-phase
reconciliation logic.

Modelling conventions:
* Python strings are Lean `String`s; `str.strip`, `str.lower`, `c in s` are
  modelled by the list-based `pyStrip`, `pyLower`, `pyContains` below
  (ASCII fragment; the claims only involve ASCII data).
* Python `str.isdigit` is modelled by `Char.isDigit` (decimal digits).
* Optional values (`None`) are `Option`; Python truthiness of an optional
  string is `strTruthy`, of an optional int is `intTruthy`.
* Python `dict[str, int]` identity maps are functions `String → Option Nat`;
  Python `set` idempotency sets are `Finset`.
* `datetime` values are modelled as whole seconds since the Unix epoch
  (an `Int`); sub-second precision is immaterial to every claim.
* The external `phonenumbers` library is an abstract interface `PhoneLib`;
  the external CRM HTTP client and its failures are oracles passed to the
  reconciliation functions (`Option` results / success booleans).
-/


namespace CrmSync

/-! ## Definitions: embedding of the crm_sync package -/

/-- Python `str.strip()` (whitespace removal at both ends), list-based so it
kernel-reduces on concrete inputs. -/
def pyStrip (s : String) : String :=
  String.mk (((s.toList.dropWhile Char.isWhitespace).reverse.dropWhile
    Char.isWhitespace).reverse)

/-- Python `str.lower()` on the ASCII fragment. -/
def pyLower (s : String) : String := String.mk (s.toList.map Char.toLower)

/-- Python membership test for a character in a string. -/
def pyContains (s : String) (c : Char) : Bool := s.toList.contains c

/-- Python truthiness of an optional string: `if s:` holds iff the value is
present and nonempty. -/
def strTruthy : Option String → Bool
  | none => false
  | some s => s != ""

/-- Python truthiness of an optional integer: `if n:` holds iff the value is
present and nonzero. -/
def intTruthy : Option Nat → Bool
  | none => false
  | some n => n != 0

/-- Update of an identity map (`d[k] = v` on a Python dict). -/
def mapInsert (m : String → Option Nat) (k : String) (v : Nat) :
    String → Option Nat :=
  fun x => if x = k then some v else m x


/-- Abstract interface of the external `phonenumbers` library.  `parse`
returns `none` where the library raises `NumberParseException`. -/
structure PhoneLib (P : Type) where
  parse : String → String → Option P
  is_valid_number : P → Bool
  is_possible_number : P → Bool
  format_number_e164 : P → String
  format_number_international : P → String

/-- Embedding of `phone.normalize_phone` (phone.py lines 7-36). -/
def normalize_phone {P : Type} (lib : PhoneLib P) (raw : Option String)
    (default_region : String) : Option String :=
  match raw with
  | none => none
  | some r =>
    if r = "" then none
    else
      let cleaned := pyStrip r
      if cleaned = "" then none
      else
        match lib.parse cleaned default_region with
        | none => none
        | some parsed =>
          if lib.is_valid_number parsed then
            some (lib.format_number_e164 parsed)
          else if lib.is_possible_number parsed then
            some (lib.format_number_e164 parsed)
          else none

/-- Embedding of `phone.format_phone_display` (phone.py lines 39-55). -/
def format_phone_display {P : Type} (lib : PhoneLib P) (e164 : Option String) :
    String :=
  match e164 with
  | none => ""
  | some s =>
    if s = "" then ""
    else
      match lib.parse s "" with
      | none => s
      | some parsed => lib.format_number_international parsed

/-- Character kept by `strip_phone_formatting`: a decimal digit or a plus. -/
def keepChar (c : Char) : Bool := c.isDigit || c == '+'

/-- The `cleaned` string built inside `strip_phone_formatting`: the input with
every character that is neither a digit nor a plus removed. -/
def strip_cleaned (r : String) : String := String.mk (r.toList.filter keepChar)

/-- Embedding of `phone.strip_phone_formatting` (phone.py lines 58-77): keeps
every character satisfying `keepChar`, returns `none` if the result is empty
or the single character plus. -/
def strip_phone_formatting : Option String → Option String
  | none => none
  | some r =>
    if r = "" then none
    else if strip_cleaned r = "" || strip_cleaned r = "+" then none
    else some (strip_cleaned r)


/-- Embedding of `config.SyncState` (config.py lines 54-64).  Timestamps are
`Option Int` (seconds), the idempotency sets are `Finset`s, and the identity
maps are lookup functions. -/
structure SyncState where
  last_contacts_sync : Option Int
  last_messages_sync : Option Int
  last_calls_sync : Option Int
  synced_message_guids : Finset String
  synced_call_ids : Finset Int
  phone_to_contact_id : String → Option Nat
  email_to_contact_id : String → Option Nat

/-- Embedding of `config.SyncState.clear` (config.py lines 98-105): resets the
three timestamps and both idempotency sets, keeps the contact mappings. -/
def SyncState.clear (s : SyncState) : SyncState :=
  { last_contacts_sync := none
    last_messages_sync := none
    last_calls_sync := none
    synced_message_guids := ∅
    synced_call_ids := ∅
    phone_to_contact_id := s.phone_to_contact_id
    email_to_contact_id := s.email_to_contact_id }





/-- Toy instantiation of the phonenumbers interface, used to exercise the
theorems on concrete inputs: it parses exactly one number, reports it
possible but not strictly valid. -/
def demoLib : PhoneLib Unit :=
  { parse := fun raw _ => if raw = "(902) 555-1234" then some () else none
    is_valid_number := fun _ => false
    is_possible_number := fun _ => true
    format_number_e164 := fun _ => "+19025551234"
    format_number_international := fun _ => "+1 902-555-1234" }


/-- The stripped-key fallback block of `cli._find_contact_for_phone`
(cli.py lines 522-529), including the Python truthiness tests
(`if stripped:` and `if contact_id:`). -/
def phone_stripped_lookup (phone : String)
    (phone_to_contact_id : String → Option Nat) : Option Nat :=
  match strip_phone_formatting (some phone) with
  | some s =>
    if s != "" then
      match phone_to_contact_id s with
      | some cid => if cid != 0 then some cid else none
      | none => none
    else none
  | none => none

/-- Embedding of `cli._find_contact_for_phone` (cli.py lines 502-529): the
canonical E.164 key is tried first, then the stripped key; each hit is
subject to Python truthiness (`if contact_id:`), so a stored 0 is skipped. -/
def _find_contact_for_phone {P : Type} (lib : PhoneLib P)
    (default_region phone : String)
    (phone_to_contact_id : String → Option Nat) : Option Nat :=
  match normalize_phone lib (some phone) default_region with
  | some k =>
    if k != "" then
      match phone_to_contact_id k with
      | some cid =>
        if cid != 0 then some cid
        else phone_stripped_lookup phone phone_to_contact_id
      | none => phone_stripped_lookup phone phone_to_contact_id
    else phone_stripped_lookup phone phone_to_contact_id
  | none => phone_stripped_lookup phone phone_to_contact_id

/-- Embedding of `cli._find_contact_for_handle` (cli.py lines 481-499):
handles containing an at sign resolve via the email map only (raw dict get,
no truthiness check inside), the rest via the phone path. -/
def _find_contact_for_handle {P : Type} (lib : PhoneLib P)
    (default_region handle : String)
    (phone_to_contact_id email_to_contact_id : String → Option Nat) :
    Option Nat :=
  if pyContains handle '@' then email_to_contact_id (pyLower handle)
  else _find_contact_for_phone lib default_region handle phone_to_contact_id


/-- Phone map for the C2 counterexample: the canonical key is present but
mapped to contact ID 0. -/
def c2map : String → Option Nat := mapInsert (fun _ => none) "+19025551234" 0

/-- Phone map for the C2 witness: the canonical key holds contact ID 7. -/
def c2wmap : String → Option Nat := mapInsert (fun _ => none) "+19025551234" 7


/-- Seconds between the Apple epoch (2001-01-01) and the Unix epoch. -/
def APPLE_EPOCH_OFFSET : Int := 978307200

/-- A raw row of the iMessage `message`-join-`handle` query. -/
structure MsgRow where
  rowid : Int
  guid : String
  date : Option Int
  is_from_me : Bool
  handle : Option String
deriving DecidableEq

/-- Embedding of `messages.Message`. -/
structure Message where
  rowid : Int
  guid : String
  date : Int
  is_from_me : Bool
  handle : String
deriving DecidableEq

/-- Embedding of `messages.apple_timestamp_to_datetime` (None and 0 map to
None; nanoseconds become Unix seconds). -/
def msg_apple_timestamp_to_datetime : Option Int → Option Int
  | none => none
  | some t => if t = 0 then none else some (t / 1000000000 + APPLE_EPOCH_OFFSET)

/-- The SQL row filter of `read_messages`: `h.id IS NOT NULL`, and when the
since-timestamp is truthy (nonzero), `m.date > ?` (a NULL date fails the
comparison). -/
def msg_sql_keep (since_timestamp : Int) (r : MsgRow) : Bool :=
  r.handle.isSome &&
    (since_timestamp == 0 ||
      match r.date with
      | none => false
      | some d => decide (since_timestamp < d))

/-- SQLite ascending order on a nullable column: NULLs sort first. -/
def optIntLe : Option Int → Option Int → Bool
  | none, _ => true
  | some _, none => false
  | some a, some b => decide (a ≤ b)

/-- Insertion step of the executable sort used to model `ORDER BY`. -/
def insertSortedBy {α : Type} (le : α → α → Bool) (a : α) :
    List α → List α
  | [] => [a]
  | b :: t => if le a b then a :: b :: t else b :: insertSortedBy le a t

/-- Executable insertion sort modelling SQL `ORDER BY` (any order on
equal keys is acceptable: SQLite does not promise a tie order). -/
def sortBy {α : Type} (le : α → α → Bool) : List α → List α
  | [] => []
  | a :: t => insertSortedBy le a (sortBy le t)

/-- Embedding of `messages.read_messages` (messages.py lines 92-152): SQL
filter and order, then per row skip GUIDs already in the idempotency set and
rows whose timestamp does not convert. -/
def read_messages (rows : List MsgRow) (since_timestamp : Int)
    (exclude_guids : Finset String) : List Message :=
  (sortBy (fun a b => optIntLe a.date b.date)
      (rows.filter (msg_sql_keep since_timestamp))).filterMap
    (fun r =>
      if r.guid ∈ exclude_guids then none
      else
        match msg_apple_timestamp_to_datetime r.date, r.handle with
        | some d, some h => some ⟨r.rowid, r.guid, d, r.is_from_me, h⟩
        | _, _ => none)

/-- Embedding of `messages.get_message_type`. -/
def get_message_type (is_from_me : Bool) : String :=
  if is_from_me then "TEXT_OUTBOUND" else "TEXT_INBOUND"

/-- A raw row of the `ZCALLRECORD` query. -/
structure CallRow where
  rowid : Int
  zaddress : Option String
  zdate : Option Int
  zduration : Option Int
  zcalltype : Option Int
  zanswered : Option Int
deriving DecidableEq

/-- Embedding of `calls.CallRecord`. -/
structure CallRecord where
  rowid : Int
  phone : String
  date : Int
  duration : Int
  call_type : Int
  answered : Bool
deriving DecidableEq

/-- Embedding of `calls.apple_timestamp_to_datetime` (seconds, not
nanoseconds). -/
def call_apple_timestamp_to_datetime : Option Int → Option Int
  | none => none
  | some t => if t = 0 then none else some (t + APPLE_EPOCH_OFFSET)

/-- The SQL row filter of `read_calls`: `ZADDRESS IS NOT NULL` and, when the
since-timestamp is truthy, `ZDATE > ?`. -/
def call_sql_keep (since_timestamp : Int) (r : CallRow) : Bool :=
  r.zaddress.isSome &&
    (since_timestamp == 0 ||
      match r.zdate with
      | none => false
      | some d => decide (since_timestamp < d))

/-- Python `int(x or 0)` on a nullable integer column. -/
def pyIntOr0 : Option Int → Int
  | none => 0
  | some v => v

/-- Python `bool(x)` on a nullable integer column. -/
def pyBoolOfOptInt : Option Int → Bool
  | none => false
  | some v => v != 0

/-- Embedding of `calls.read_calls` (calls.py lines 88-149). -/
def read_calls (rows : List CallRow) (since_timestamp : Int)
    (exclude_rowids : Finset Int) : List CallRecord :=
  (sortBy (fun a b => optIntLe a.zdate b.zdate)
      (rows.filter (call_sql_keep since_timestamp))).filterMap
    (fun r =>
      if r.rowid ∈ exclude_rowids then none
      else
        match call_apple_timestamp_to_datetime r.zdate, r.zaddress with
        | some d, some ph =>
          some ⟨r.rowid, ph, d, pyIntOr0 r.zduration, pyIntOr0 r.zcalltype,
            pyBoolOfOptInt r.zanswered⟩
        | _, _ => none)

/-- Embedding of `calls.get_call_type`: the answered flag takes precedence,
then call type 1 is inbound, anything else outbound. -/
def get_call_type (call_type : Int) (answered : Bool) : String :=
  if !answered then "CALL_MISSED"
  else if call_type = 1 then "CALL_INBOUND"
  else "CALL_OUTBOUND"


/-- Embedding of `api.Interaction`. -/
structure Interaction where
  contact_id : Nat
  type : String
  occurred_at : Int
  content : Option String
  duration_seconds : Option Int
  source : String
deriving DecidableEq

/-- The interaction payload built for a matched message
(cli.py lines 375-381). -/
def message_interaction (m : Message) (cid : Nat) : Interaction :=
  { contact_id := cid
    type := get_message_type m.is_from_me
    occurred_at := m.date
    content := none
    duration_seconds := none
    source := "IMPORT_IOS" }

/-- The interaction payload built for a matched call (cli.py lines 462-469):
duration only when positive. -/
def call_interaction (c : CallRecord) (cid : Nat) : Interaction :=
  { contact_id := cid
    type := get_call_type c.call_type c.answered
    occurred_at := c.date
    content := none
    duration_seconds := if c.duration > 0 then some c.duration else none
    source := "IMPORT_IOS" }

/-- Interaction-creation loop of `_sync_messages` (cli.py lines 371-387): on
success the GUID joins the idempotency set and the counter advances; on
failure the loop logs and continues with the rest of the batch. -/
def message_sync_loop (ok : Interaction → Bool) :
    List (Message × Nat) → Finset String → Nat → Finset String × Nat
  | [], synced, count => (synced, count)
  | (m, cid) :: rest, synced, count =>
    if ok (message_interaction m cid) then
      message_sync_loop ok rest (insert m.guid synced) (count + 1)
    else message_sync_loop ok rest synced count

/-- Interaction-creation loop of `_sync_calls` (cli.py lines 458-475). -/
def call_sync_loop (ok : Interaction → Bool) :
    List (CallRecord × Nat) → Finset Int → Nat → Finset Int × Nat
  | [], synced, count => (synced, count)
  | (c, cid) :: rest, synced, count =>
    if ok (call_interaction c cid) then
      call_sync_loop ok rest (insert c.rowid synced) (count + 1)
    else call_sync_loop ok rest synced count

/-- Direct matching of Phase 2 (cli.py lines 340-346): a message joins
`matched` when its handle resolves to a truthy contact ID. -/
def messages_matched0 {P : Type} (lib : PhoneLib P) (default_region : String)
    (state : SyncState) (messages : List Message) : List (Message × Nat) :=
  messages.filterMap (fun m =>
    match _find_contact_for_handle lib default_region m.handle
        state.phone_to_contact_id state.email_to_contact_id with
    | some cid => if cid != 0 then some (m, cid) else none
    | none => none)

/-- The distinct unmatched handles of Phase 2 (the Python set
`unmatched_handles`), as a deduplicated list. -/
def messages_unmatched_handles {P : Type} (lib : PhoneLib P)
    (default_region : String) (state : SyncState) (messages : List Message) :
    List String :=
  ((messages.filter (fun m =>
    !(intTruthy (_find_contact_for_handle lib default_region m.handle
      state.phone_to_contact_id state.email_to_contact_id)))).map
    (fun m => m.handle)).dedup

/-- Unknown-contact creation and batch re-match of Phase 2 (cli.py lines
353-363): one `_create_unknown_contact` call per distinct unmatched handle;
a truthy created ID re-matches every message of the batch sharing the
handle.  Returns (creation calls, re-matched pairs, unknown count). -/
def message_unknown_fanin (create : String → Option Nat)
    (messages : List Message) :
    List String → List (String × Option Nat) × List (Message × Nat) × Nat
  | [] => ([], [], 0)
  | h :: rest =>
    let r := message_unknown_fanin create messages rest
    match create h with
    | some cid =>
      if cid != 0 then
        ((h, some cid) :: r.1,
          ((messages.filter (fun m => m.handle == h)).map
            (fun m => (m, cid))) ++ r.2.1,
          r.2.2 + 1)
      else ((h, some cid) :: r.1, r.2.1, r.2.2)
    | none => ((h, none) :: r.1, r.2.1, r.2.2)

/-- Direct matching of Phase 3 (cli.py lines 427-433). -/
def calls_matched0 {P : Type} (lib : PhoneLib P) (default_region : String)
    (state : SyncState) (calls : List CallRecord) : List (CallRecord × Nat) :=
  calls.filterMap (fun c =>
    match _find_contact_for_phone lib default_region c.phone
        state.phone_to_contact_id with
    | some cid => if cid != 0 then some (c, cid) else none
    | none => none)

/-- The distinct unmatched phones of Phase 3 (the Python set
`unmatched_phones`). -/
def calls_unmatched_phones {P : Type} (lib : PhoneLib P)
    (default_region : String) (state : SyncState) (calls : List CallRecord) :
    List String :=
  ((calls.filter (fun c =>
    !(intTruthy (_find_contact_for_phone lib default_region c.phone
      state.phone_to_contact_id)))).map (fun c => c.phone)).dedup

/-- Unknown-contact creation and batch re-match of Phase 3 (cli.py lines
440-450). -/
def call_unknown_fanin (create : String → Option Nat)
    (calls : List CallRecord) :
    List String → List (String × Option Nat) × List (CallRecord × Nat) × Nat
  | [] => ([], [], 0)
  | h :: rest =>
    let r := call_unknown_fanin create calls rest
    match create h with
    | some cid =>
      if cid != 0 then
        ((h, some cid) :: r.1,
          ((calls.filter (fun c => c.phone == h)).map
            (fun c => (c, cid))) ++ r.2.1,
          r.2.2 + 1)
      else ((h, some cid) :: r.1, r.2.1, r.2.2)
    | none => ((h, none) :: r.1, r.2.1, r.2.2)

/-- Observable outcome of Phase 2. -/
structure MsgPhaseResult where
  messages : List Message
  matched0 : List (Message × Nat)
  unmatched_handles : List String
  create_calls : List (String × Option Nat)
  matched : List (Message × Nat)
  contacts_unknown : Nat
  interaction_attempts : Nat
  messages_synced : Nat
  synced_message_guids : Finset String

/-- Embedding of `cli._sync_messages` (cli.py lines 306-390): read, match,
optionally create unknown contacts and re-match, then either report the
would-be count (dry run) or run the creation loop. -/
def _sync_messages {P : Type} (lib : PhoneLib P) (default_region : String)
    (create_unknown_contacts : Bool) (create : String → Option Nat)
    (ok : Interaction → Bool) (state : SyncState) (rows : List MsgRow)
    (since_timestamp : Int) (dry_run known_only : Bool) : MsgPhaseResult :=
  let messages := read_messages rows since_timestamp state.synced_message_guids
  let matched0 := messages_matched0 lib default_region state messages
  let unmatched := messages_unmatched_handles lib default_region state messages
  let fan := if !unmatched.isEmpty && !known_only && create_unknown_contacts
      && !dry_run then
      message_unknown_fanin create messages unmatched
    else ([], [], 0)
  let matched := matched0 ++ fan.2.1
  if dry_run then
    { messages := messages
      matched0 := matched0
      unmatched_handles := unmatched
      create_calls := fan.1
      matched := matched
      contacts_unknown := fan.2.2
      interaction_attempts := 0
      messages_synced := matched.length
      synced_message_guids := state.synced_message_guids }
  else
    { messages := messages
      matched0 := matched0
      unmatched_handles := unmatched
      create_calls := fan.1
      matched := matched
      contacts_unknown := fan.2.2
      interaction_attempts := matched.length
      messages_synced := (message_sync_loop ok matched
        state.synced_message_guids 0).2
      synced_message_guids := (message_sync_loop ok matched
        state.synced_message_guids 0).1 }

/-- Observable outcome of Phase 3. -/
structure CallPhaseResult where
  calls : List CallRecord
  matched0 : List (CallRecord × Nat)
  unmatched_phones : List String
  create_calls : List (String × Option Nat)
  matched : List (CallRecord × Nat)
  contacts_unknown : Nat
  interaction_attempts : Nat
  calls_synced : Nat
  synced_call_ids : Finset Int

/-- Embedding of `cli._sync_calls` (cli.py lines 393-478). -/
def _sync_calls {P : Type} (lib : PhoneLib P) (default_region : String)
    (create_unknown_contacts : Bool) (create : String → Option Nat)
    (ok : Interaction → Bool) (state : SyncState) (rows : List CallRow)
    (since_timestamp : Int) (dry_run known_only : Bool) : CallPhaseResult :=
  let calls := read_calls rows since_timestamp state.synced_call_ids
  let matched0 := calls_matched0 lib default_region state calls
  let unmatched := calls_unmatched_phones lib default_region state calls
  let fan := if !unmatched.isEmpty && !known_only && create_unknown_contacts
      && !dry_run then
      call_unknown_fanin create calls unmatched
    else ([], [], 0)
  let matched := matched0 ++ fan.2.1
  if dry_run then
    { calls := calls
      matched0 := matched0
      unmatched_phones := unmatched
      create_calls := fan.1
      matched := matched
      contacts_unknown := fan.2.2
      interaction_attempts := 0
      calls_synced := matched.length
      synced_call_ids := state.synced_call_ids }
  else
    { calls := calls
      matched0 := matched0
      unmatched_phones := unmatched
      create_calls := fan.1
      matched := matched
      contacts_unknown := fan.2.2
      interaction_attempts := matched.length
      calls_synced := (call_sync_loop ok matched state.synced_call_ids 0).2
      synced_call_ids := (call_sync_loop ok matched state.synced_call_ids 0).1 }

/-- The save step of `main` (cli.py lines 134-136): the state file is written
exactly when not in dry-run mode. -/
def main_saves_state (dry_run : Bool) : Bool := !dry_run


/-- Concrete source row for the C1 witness. -/
def c1row : MsgRow :=
  { rowid := 1, guid := "g1", date := some 5, is_from_me := false,
    handle := some "a@b.c" }

/-- The message `c1row` becomes when read with nothing excluded. -/
def c1msg : Message :=
  { rowid := 1, guid := "g1", date := 978307200, is_from_me := false,
    handle := "a@b.c" }

/-- State for the C1 witness whose message idempotency set already holds the
only source GUID. -/
def c1state : SyncState :=
  { last_contacts_sync := none
    last_messages_sync := none
    last_calls_sync := none
    synced_message_guids := {"g1"}
    synced_call_ids := ∅
    phone_to_contact_id := fun _ => none
    email_to_contact_id := fun _ => none }



/-- A phonenumbers stub that parses nothing, so every phone handle falls back
to the stripped key. -/
def nolib : PhoneLib Unit :=
  { parse := fun _ _ => none
    is_valid_number := fun _ => false
    is_possible_number := fun _ => false
    format_number_e164 := fun _ => ""
    format_number_international := fun _ => "" }

/-- Empty persisted state. -/
def emptyState : SyncState :=
  { last_contacts_sync := none
    last_messages_sync := none
    last_calls_sync := none
    synced_message_guids := ∅
    synced_call_ids := ∅
    phone_to_contact_id := fun _ => none
    email_to_contact_id := fun _ => none }

/-- Source row whose handle matches no contact. -/
def c5row : MsgRow :=
  { rowid := 1, guid := "g1", date := some 5, is_from_me := false,
    handle := some "5551234" }

/-- The message read from `c5row`. -/
def c5msg : Message :=
  { rowid := 1, guid := "g1", date := 978307200, is_from_me := false,
    handle := "5551234" }


/-- Embedding of `contacts.LocalContact`. -/
structure LocalContact where
  rowid : Int
  first_name : Option String
  last_name : Option String
  organization : Option String
  notes : Option String
  phones : List String
  emails : List String
deriving DecidableEq

/-- Embedding of `api.Contact` as returned by the CRM (ID assigned). -/
structure Contact where
  id : Nat
  first_name : String
  last_name : String
  phone : Option String
  email : Option String
  organization : Option String
  notes : Option String
deriving DecidableEq

/-- The dictionary queued in `new_contacts` for one local contact
(cli.py lines 259-266). -/
structure NewContactData where
  first_name : String
  last_name : String
  phone : Option String
  email : Option String
  organization : Option String
  notes : Option String
deriving DecidableEq

/-- One raw phone hits the duplicate check of Phase 1 (cli.py lines
219-227): canonical key tried, then stripped key, both via dict membership
(`in`), each guarded by string truthiness. -/
def phone_is_dup {P : Type} (lib : PhoneLib P) (default_region : String)
    (phone_to_contact_id : String → Option Nat) (ph : String) : Bool :=
  (match normalize_phone lib (some ph) default_region with
    | some k => k != "" && (phone_to_contact_id k).isSome
    | none => false) ||
  (match strip_phone_formatting (some ph) with
    | some s => s != "" && (phone_to_contact_id s).isSome
    | none => false)

/-- The full duplicate check of Phase 1 (cli.py lines 217-233): any raw
phone, or any lower-cased raw email, resolving in the identity maps. -/
def is_duplicate {P : Type} (lib : PhoneLib P) (default_region : String)
    (phone_to_contact_id email_to_contact_id : String → Option Nat)
    (lc : LocalContact) : Bool :=
  lc.phones.any (phone_is_dup lib default_region phone_to_contact_id) ||
  lc.emails.any (fun em => (email_to_contact_id (pyLower em)).isSome)

/-- Name preparation of Phase 1 (cli.py lines 240-245): missing names become
empty strings, and a truthy organization is promoted into the first-name
field when both names are empty. -/
def contact_first_last (lc : LocalContact) : String × String :=
  if lc.first_name.getD "" == "" && lc.last_name.getD "" == "" &&
      strTruthy lc.organization then
    (lc.organization.getD "", lc.last_name.getD "")
  else (lc.first_name.getD "", lc.last_name.getD "")

/-- Primary phone selection (cli.py lines 251-255): the first phone,
normalized when possible, raw otherwise. -/
def primary_phone {P : Type} (lib : PhoneLib P) (default_region : String)
    (phones : List String) : Option String :=
  match phones with
  | [] => none
  | p :: _ =>
    match normalize_phone lib (some p) default_region with
    | some k => if k != "" then some k else some p
    | none => some p

/-- How Phase 1 treats one local contact. -/
inductive ContactClass where
  | existing : ContactClass
  | skipped : ContactClass
  | queued : NewContactData → ContactClass
deriving DecidableEq

/-- Classification of one local contact by the Phase 1 loop (cli.py lines
215-266): duplicates are counted existing, nameless contacts are skipped,
the rest are queued for creation with first phone and first email only. -/
def classify_local {P : Type} (lib : PhoneLib P) (default_region : String)
    (phone_to_contact_id email_to_contact_id : String → Option Nat)
    (lc : LocalContact) : ContactClass :=
  if is_duplicate lib default_region phone_to_contact_id email_to_contact_id
      lc then
    ContactClass.existing
  else if (contact_first_last lc).1 == "" && (contact_first_last lc).2 == ""
    then ContactClass.skipped
  else
    ContactClass.queued
      { first_name := (contact_first_last lc).1
        last_name := (contact_first_last lc).2
        phone := primary_phone lib default_region lc.phones
        email := lc.emails.head?
        organization := lc.organization
        notes := lc.notes }

/-- The `new_contacts` queue of Phase 1 (cli.py lines 214-266). -/
def new_contacts {P : Type} (lib : PhoneLib P) (default_region : String)
    (phone_to_contact_id email_to_contact_id : String → Option Nat)
    (locals : List LocalContact) : List NewContactData :=
  locals.filterMap (fun lc =>
    match classify_local lib default_region phone_to_contact_id
        email_to_contact_id lc with
    | ContactClass.queued c => some c
    | _ => none)

/-- The count a Phase 1 dry run reports (cli.py lines 268-271): the length
of the creation queue. -/
def contacts_dry_report {P : Type} (lib : PhoneLib P)
    (default_region : String)
    (phone_to_contact_id email_to_contact_id : String → Option Nat)
    (locals : List LocalContact) : Nat :=
  (new_contacts lib default_region phone_to_contact_id email_to_contact_id
    locals).length

/-- The contact creations Phase 1 attempts (cli.py lines 268-287): none in
dry-run mode, otherwise one per queued contact. -/
def contacts_creation_attempts {P : Type} (lib : PhoneLib P)
    (default_region : String)
    (phone_to_contact_id email_to_contact_id : String → Option Nat)
    (locals : List LocalContact) (dry_run : Bool) : List NewContactData :=
  if dry_run then []
  else new_contacts lib default_region phone_to_contact_id
    email_to_contact_id locals

/-- Identity-map registration of an existing remote contact (cli.py lines
200-211): both the canonical and the stripped phone key, and the lower-cased
email key. -/
def register_remote_contact {P : Type} (lib : PhoneLib P)
    (default_region : String) (c : Contact)
    (phone_to_contact_id email_to_contact_id : String → Option Nat) :
    (String → Option Nat) × (String → Option Nat) :=
  let pmap1 :=
    match c.phone with
    | some ph =>
      if ph != "" then
        let p2 :=
          match normalize_phone lib (some ph) default_region with
          | some k =>
            if k != "" then mapInsert phone_to_contact_id k c.id
            else phone_to_contact_id
          | none => phone_to_contact_id
        match strip_phone_formatting (some ph) with
        | some s => if s != "" then mapInsert p2 s c.id else p2
        | none => p2
      else phone_to_contact_id
    | none => phone_to_contact_id
  let emap1 :=
    match c.email with
    | some em =>
      if em != "" then mapInsert email_to_contact_id (pyLower em) c.id
      else email_to_contact_id
    | none => email_to_contact_id
  (pmap1, emap1)

/-- Identity-map registration of a contact created by Phase 1 (cli.py lines
290-296): only the canonical phone key and the lower-cased email key — no
stripped key. -/
def register_created_contact {P : Type} (lib : PhoneLib P)
    (default_region : String) (c : Contact)
    (phone_to_contact_id email_to_contact_id : String → Option Nat) :
    (String → Option Nat) × (String → Option Nat) :=
  let pmap1 :=
    match c.phone with
    | some ph =>
      if ph != "" then
        match normalize_phone lib (some ph) default_region with
        | some k =>
          if k != "" then mapInsert phone_to_contact_id k c.id
          else phone_to_contact_id
        | none => phone_to_contact_id
      else phone_to_contact_id
    | none => phone_to_contact_id
  let emap1 :=
    match c.email with
    | some em =>
      if em != "" then mapInsert email_to_contact_id (pyLower em) c.id
      else email_to_contact_id
    | none => email_to_contact_id
  (pmap1, emap1)

/-- Identity-map registration inside `_create_unknown_contact` (cli.py lines
580-591): like remote registration, both phone keys and the email key. -/
def register_unknown_contact_keys {P : Type} (lib : PhoneLib P)
    (default_region : String) (c : Contact)
    (phone_to_contact_id email_to_contact_id : String → Option Nat) :
    (String → Option Nat) × (String → Option Nat) :=
  let pmap1 :=
    match c.phone with
    | some ph =>
      if ph != "" then
        let p2 :=
          match normalize_phone lib (some ph) default_region with
          | some k =>
            if k != "" then mapInsert phone_to_contact_id k c.id
            else phone_to_contact_id
          | none => phone_to_contact_id
        match strip_phone_formatting (some ph) with
        | some s => if s != "" then mapInsert p2 s c.id else p2
        | none => p2
      else phone_to_contact_id
    | none => phone_to_contact_id
  let emap1 :=
    match c.email with
    | some em =>
      if em != "" then mapInsert email_to_contact_id (pyLower em) c.id
      else email_to_contact_id
    | none => email_to_contact_id
  (pmap1, emap1)



/-- Local contact with only an organization, used to exercise C3. -/
def c3lc : LocalContact :=
  { rowid := 1, first_name := none, last_name := none,
    organization := some "Acme", notes := none, phones := [], emails := [] }

/-- Created contact used to exercise C10. -/
def c10c : Contact :=
  { id := 9, first_name := "A", last_name := "B",
    phone := some "(902) 555-1234", email := some "X@Y.z",
    organization := none, notes := none }

/-! ## Theorems: the claims and their supporting lemmas -/

/-- Unfolding the string builder down to its character list. -/
lemma strip_cleaned_toList (r : String) :
    (strip_cleaned r).toList = r.toList.filter keepChar := rfl

/-- A successful strip result is neither empty nor the bare plus sign. -/
lemma strip_some_ne (raw : Option String) (s : String)
    (h : strip_phone_formatting raw = some s) : s ≠ "" ∧ s ≠ "+" := by
  match raw with
  | none => exact Option.noConfusion h
  | some r =>
    simp only [strip_phone_formatting] at h
    split at h
    · exact Option.noConfusion h
    · split at h
      · exact Option.noConfusion h
      · rename_i hc
        cases h
        simpa [not_or] using hc

/-- The characters of a successful strip result. -/
lemma strip_some_chars (raw s : String)
    (h : strip_phone_formatting (some raw) = some s) :
    s.toList = raw.toList.filter keepChar := by
  simp only [strip_phone_formatting] at h
  split at h
  · exact Option.noConfusion h
  · split at h
    · exact Option.noConfusion h
    · cases h
      rfl

/-- Strip returns `none` exactly when the kept characters are empty or the
single plus. -/
lemma strip_none_iff (raw : String) (hr : raw ≠ "") :
    strip_phone_formatting (some raw) = none ↔
      raw.toList.filter keepChar = [] ∨ raw.toList.filter keepChar = ['+'] := by
  simp only [strip_phone_formatting]
  rw [if_neg hr]
  constructor
  · intro h
    split at h
    · rename_i hc
      rcases (by simpa using hc : strip_cleaned raw = "" ∨ strip_cleaned raw = "+")
        with hc2 | hc2
      · left
        have := congrArg String.toList hc2
        rw [strip_cleaned_toList] at this
        exact this
      · right
        have := congrArg String.toList hc2
        rw [strip_cleaned_toList] at this
        exact this
    · exact Option.noConfusion h
  · intro h
    have hc : strip_cleaned raw = "" ∨ strip_cleaned raw = "+" := by
      rcases h with h | h
      · left
        apply String.ext
        exact h
      · right
        apply String.ext
        exact h
    rcases hc with hc | hc <;> simp [hc]

/-- C6: `clear()` nulls the three phase timestamps, empties both idempotency
sets, and leaves `phone_to_contact_id` and `email_to_contact_id` exactly
unchanged. -/
theorem C6_clear_frame (s : SyncState) :
    s.clear.last_contacts_sync = none ∧
    s.clear.last_messages_sync = none ∧
    s.clear.last_calls_sync = none ∧
    s.clear.synced_message_guids = ∅ ∧
    s.clear.synced_call_ids = ∅ ∧
    s.clear.phone_to_contact_id = s.phone_to_contact_id ∧
    s.clear.email_to_contact_id = s.email_to_contact_id :=
  ⟨rfl, rfl, rfl, rfl, rfl, rfl, rfl⟩

/-- C8 counterexample: on input `"1+2"` the function returns `"1+2"`, whose
second character is a plus, contradicting the claim that at most a single
leading plus survives and every other character is a decimal digit. -/
theorem C8_strip_counterexample :
    strip_phone_formatting (some "1+2") = some "1+2" ∧
    (("1+2".toList.drop 1).all Char.isDigit) = false := by
  constructor <;> decide

/-- C8 amended: `strip_phone_formatting` returns the subsequence of the input
made of its decimal digits and of every plus sign, wherever the plus occurs
(not only a single leading one); it returns `none` exactly when the input has
no digit and at most one plus (kept characters empty or a lone plus). -/
theorem C8_strip_amended (raw : String) (hraw : raw ≠ "") :
    (strip_phone_formatting (some raw) = none ↔
      ((∀ c ∈ raw.toList, ¬ c.isDigit) ∧ raw.toList.count '+' ≤ 1)) ∧
    (∀ s, strip_phone_formatting (some raw) = some s →
      (∀ c ∈ s.toList, c.isDigit ∨ c = '+') ∧
      s.toList.Sublist raw.toList ∧
      (∀ c, c.isDigit ∨ c = '+' → s.toList.count c = raw.toList.count c)) := by
  constructor
  · rw [strip_none_iff raw hraw]
    constructor
    · rintro (h | h)
      · constructor
        · intro c hc hd
          have hmem : c ∈ raw.toList.filter keepChar :=
            List.mem_filter.mpr ⟨hc, by simp [keepChar, hd]⟩
          rw [h] at hmem
          exact absurd hmem (List.not_mem_nil c)
        · have hcount : raw.toList.count '+' =
              (raw.toList.filter keepChar).count '+' :=
            (List.count_filter (by decide)).symm
          rw [hcount, h]
          simp
      · constructor
        · intro c hc hd
          have hmem : c ∈ raw.toList.filter keepChar :=
            List.mem_filter.mpr ⟨hc, by simp [keepChar, hd]⟩
          rw [h] at hmem
          have : c = '+' := by simpa using hmem
          rw [this] at hd
          exact absurd hd (by decide)
        · have hcount : raw.toList.count '+' =
              (raw.toList.filter keepChar).count '+' :=
            (List.count_filter (by decide)).symm
          rw [hcount, h]
          simp
    · rintro ⟨hnd, hle⟩
      have hfe : raw.toList.filter keepChar =
          raw.toList.filter (fun c => c == '+') := by
        apply List.filter_congr
        intro c hc
        have : c.isDigit = false := by
          have := hnd c hc
          simpa using this
        simp [keepChar, this]
      rcases Nat.le_one_iff_eq_zero_or_eq_one.mp hle with h0 | h1
      · left
        rw [hfe, List.filter_beq, h0]
        rfl
      · right
        rw [hfe, List.filter_beq, h1]
        rfl
  · intro s hs
    have hchars := strip_some_chars raw s hs
    refine ⟨?_, ?_, ?_⟩
    · intro c hc
      rw [hchars] at hc
      have := (List.mem_filter.mp hc).2
      simp only [keepChar, Bool.or_eq_true, beq_iff_eq] at this
      exact this
    · rw [hchars]
      exact List.filter_sublist raw.toList
    · intro c hc
      rw [hchars]
      apply List.count_filter
      simp only [keepChar, Bool.or_eq_true, beq_iff_eq]
      exact hc

/-- C8 witness: the amended theorem instantiated at a real phone string. -/
theorem C8_strip_amended_witness :
    ((∀ c ∈ "9025551234".toList, c.isDigit ∨ c = '+') ∧
      "9025551234".toList.Sublist "(902) 555-1234".toList ∧
      (∀ c, c.isDigit ∨ c = '+' →
        "9025551234".toList.count c = "(902) 555-1234".toList.count c)) :=
  (C8_strip_amended "(902) 555-1234" (by decide)).2 "9025551234" (by decide)

/-- C9: `normalize_phone` returns `none` on missing, empty or whitespace-only
input and on input the library fails to parse; whenever the stripped input
parses to a number that is possible for some region, it returns its E.164
form even if strict validation fails. -/
theorem C9_normalize_possible {P : Type} (lib : PhoneLib P)
    (default_region : String) :
    normalize_phone lib none default_region = none ∧
    (∀ r : String, pyStrip r = "" →
      normalize_phone lib (some r) default_region = none) ∧
    (∀ r : String, pyStrip r ≠ "" →
      lib.parse (pyStrip r) default_region = none →
      normalize_phone lib (some r) default_region = none) ∧
    (∀ (r : String) (p : P), pyStrip r ≠ "" →
      lib.parse (pyStrip r) default_region = some p →
      lib.is_possible_number p = true →
      normalize_phone lib (some r) default_region =
        some (lib.format_number_e164 p)) := by
  refine ⟨rfl, ?_, ?_, ?_⟩
  · intro r hstrip
    by_cases hr : r = ""
    · simp [normalize_phone, hr]
    · simp [normalize_phone, hr, hstrip]
  · intro r hstrip hparse
    have hr : r ≠ "" := by
      intro h
      apply hstrip
      rw [h]
      rfl
    simp [normalize_phone, hr, hstrip, hparse]
  · intro r p hstrip hparse hposs
    have hr : r ≠ "" := by
      intro h
      apply hstrip
      rw [h]
      rfl
    by_cases hv : lib.is_valid_number p = true
    · simp [normalize_phone, hr, hstrip, hparse, hv]
    · simp [normalize_phone, hr, hstrip, hparse, hv, hposs]

/-- C9 witness: whitespace-only input yields none; a possible-but-not-valid
number is still normalized to E.164. -/
theorem C9_normalize_possible_witness :
    normalize_phone demoLib (some "   ") "US" = none ∧
    normalize_phone demoLib (some "(902) 555-1234") "US" = some "+19025551234" :=
  ⟨(C9_normalize_possible demoLib "US").2.1 "   " (by decide),
    (C9_normalize_possible demoLib "US").2.2.2 "(902) 555-1234" () (by decide)
      (by decide) rfl⟩

/-- A nonzero hit on the canonical key returns immediately. -/
lemma find_phone_canonical {P : Type} (lib : PhoneLib P)
    (default_region phone k : String) (pmap : String → Option Nat) (c : Nat)
    (hk : normalize_phone lib (some phone) default_region = some k)
    (hkne : k ≠ "") (hpk : pmap k = some c) (hc0 : c ≠ 0) :
    _find_contact_for_phone lib default_region phone pmap = some c := by
  simp [_find_contact_for_phone, hk, hkne, hpk, hc0]

/-- When the canonical key yields no truthy hit, the lookup reduces to the
stripped-key fallback. -/
lemma find_phone_fallthrough {P : Type} (lib : PhoneLib P)
    (default_region phone : String) (pmap : String → Option Nat)
    (hcan : ∀ k, normalize_phone lib (some phone) default_region = some k →
      k ≠ "" → pmap k = none ∨ pmap k = some 0) :
    _find_contact_for_phone lib default_region phone pmap =
      phone_stripped_lookup phone pmap := by
  unfold _find_contact_for_phone
  match hn : normalize_phone lib (some phone) default_region with
  | none => rfl
  | some k =>
    by_cases hk : k = ""
    · simp [hk]
    · rcases hcan k hn hk with h | h <;> simp [hk, h]

/-- A nonzero hit on the stripped key is returned by the fallback block. -/
lemma stripped_lookup_hit (phone s : String) (pmap : String → Option Nat)
    (c : Nat) (hs : strip_phone_formatting (some phone) = some s)
    (hps : pmap s = some c) (hc0 : c ≠ 0) :
    phone_stripped_lookup phone pmap = some c := by
  have hne := (strip_some_ne (some phone) s hs).1
  simp [phone_stripped_lookup, hs, hne, hps, hc0]

/-- C2 counterexample: the phone normalizes to a canonical key that IS in the
phone map, yet the lookup returns no contact ID, because the stored ID 0 is
Python-falsy and the stripped key is absent. -/
theorem C2_lookup_counterexample :
    normalize_phone demoLib (some "(902) 555-1234") "US" = some "+19025551234" ∧
    c2map "+19025551234" = some 0 ∧
    _find_contact_for_phone demoLib "US" "(902) 555-1234" c2map = none := by
  refine ⟨?_, ?_, ?_⟩ <;> decide

/-- C2 amended: the lookup tries the canonical E.164 key first and the
stripped key second, returning the first hit whose stored contact ID is
nonzero; hence if the phone normalizes to canonical key K, the lookup returns
a contact ID whenever the map holds a nonzero ID under K or under the
stripped key (an entry mapped to 0 is skipped by Python truthiness). -/
theorem C2_lookup_amended {P : Type} (lib : PhoneLib P)
    (default_region phone : String) (pmap : String → Option Nat) :
    (∀ k c, normalize_phone lib (some phone) default_region = some k →
      k ≠ "" → pmap k = some c → c ≠ 0 →
      _find_contact_for_phone lib default_region phone pmap = some c) ∧
    (∀ s c, (∀ k, normalize_phone lib (some phone) default_region = some k →
        k ≠ "" → pmap k = none ∨ pmap k = some 0) →
      strip_phone_formatting (some phone) = some s →
      pmap s = some c → c ≠ 0 →
      _find_contact_for_phone lib default_region phone pmap = some c) ∧
    (∀ k, normalize_phone lib (some phone) default_region = some k → k ≠ "" →
      ((∃ c, pmap k = some c ∧ c ≠ 0) ∨
        (∃ s, strip_phone_formatting (some phone) = some s ∧
          ∃ c, pmap s = some c ∧ c ≠ 0)) →
      ∃ c, _find_contact_for_phone lib default_region phone pmap = some c ∧
        c ≠ 0) := by
  refine ⟨?_, ?_, ?_⟩
  · intro k c hk hkne hpk hc0
    exact find_phone_canonical lib default_region phone k pmap c hk hkne hpk hc0
  · intro s c hcan hs hps hc0
    rw [find_phone_fallthrough lib default_region phone pmap hcan]
    exact stripped_lookup_hit phone s pmap c hs hps hc0
  · intro k hk hkne hdisj
    rcases hdisj with ⟨c, hpk, hc0⟩ | ⟨s, hs, c, hps, hc0⟩
    · exact ⟨c, find_phone_canonical lib default_region phone k pmap c hk hkne
        hpk hc0, hc0⟩
    · match hpk : pmap k with
      | some c2 =>
        by_cases hc2 : c2 = 0
        · refine ⟨c, ?_, hc0⟩
          rw [find_phone_fallthrough lib default_region phone pmap ?_]
          · exact stripped_lookup_hit phone s pmap c hs hps hc0
          · intro k2 hk2 _
            rw [hk] at hk2
            cases hk2
            rw [hpk, hc2]
            right
            rfl
        · exact ⟨c2, find_phone_canonical lib default_region phone k pmap c2 hk
            hkne hpk hc2, hc2⟩
      | none =>
        refine ⟨c, ?_, hc0⟩
        rw [find_phone_fallthrough lib default_region phone pmap ?_]
        · exact stripped_lookup_hit phone s pmap c hs hps hc0
        · intro k2 hk2 _
          rw [hk] at hk2
          cases hk2
          exact Or.inl hpk

/-- C2 witness: the amended lookup theorem applied at a concrete phone and
map with a nonzero canonical entry. -/
theorem C2_lookup_amended_witness :
    _find_contact_for_phone demoLib "US" "(902) 555-1234" c2wmap = some 7 :=
  (C2_lookup_amended demoLib "US" "(902) 555-1234" c2wmap).1 "+19025551234" 7
    (by decide) (by decide) (by decide) (by decide)

/-- Membership is preserved by the insertion step. -/
lemma mem_insertSortedBy {α : Type} (le : α → α → Bool) (a x : α)
    (l : List α) : x ∈ insertSortedBy le a l ↔ x = a ∨ x ∈ l := by
  induction l with
  | nil => simp [insertSortedBy]
  | cons b t ih =>
    unfold insertSortedBy
    by_cases h : le a b = true
    · rw [if_pos h]
      simp
    · rw [if_neg h]
      simp only [List.mem_cons, ih]
      tauto

/-- Sorting preserves membership. -/
lemma mem_sortBy {α : Type} (le : α → α → Bool) (x : α) (l : List α) :
    x ∈ sortBy le l ↔ x ∈ l := by
  induction l with
  | nil => simp [sortBy]
  | cons a t ih => simp [sortBy, mem_insertSortedBy, ih]

/-- Messages yielded by the reader never carry an excluded GUID. -/
lemma read_messages_excludes (rows : List MsgRow) (since : Int)
    (excl : Finset String) (m : Message)
    (hm : m ∈ read_messages rows since excl) : m.guid ∉ excl := by
  unfold read_messages at hm
  rcases List.mem_filterMap.mp hm with ⟨r, _, hfr⟩
  by_cases hg : r.guid ∈ excl
  · rw [if_pos hg] at hfr
    exact Option.noConfusion hfr
  · rw [if_neg hg] at hfr
    split at hfr
    · cases hfr
      exact hg
    · exact Option.noConfusion hfr

/-- Calls yielded by the reader never carry an excluded ROWID. -/
lemma read_calls_excludes (rows : List CallRow) (since : Int)
    (excl : Finset Int) (c : CallRecord)
    (hc : c ∈ read_calls rows since excl) : c.rowid ∉ excl := by
  unfold read_calls at hc
  rcases List.mem_filterMap.mp hc with ⟨r, _, hfr⟩
  by_cases hg : r.rowid ∈ excl
  · rw [if_pos hg] at hfr
    exact Option.noConfusion hfr
  · rw [if_neg hg] at hfr
    split at hfr
    · cases hfr
      exact hg
    · exact Option.noConfusion hfr

/-- When every source GUID is already in the idempotency set, the reader
yields nothing. -/
lemma read_messages_all_excluded (rows : List MsgRow) (since : Int)
    (excl : Finset String) (h : ∀ r ∈ rows, r.guid ∈ excl) :
    read_messages rows since excl = [] := by
  unfold read_messages
  apply List.filterMap_eq_nil_iff.mpr
  intro r hr
  have hr2 : r ∈ rows :=
    (List.mem_filter.mp ((mem_sortBy _ r _).mp hr)).1
  rw [if_pos (h r hr2)]

/-- When every source ROWID is already in the idempotency set, the reader
yields nothing. -/
lemma read_calls_all_excluded (rows : List CallRow) (since : Int)
    (excl : Finset Int) (h : ∀ r ∈ rows, r.rowid ∈ excl) :
    read_calls rows since excl = [] := by
  unfold read_calls
  apply List.filterMap_eq_nil_iff.mpr
  intro r hr
  have hr2 : r ∈ rows :=
    (List.mem_filter.mp ((mem_sortBy _ r _).mp hr)).1
  rw [if_pos (h r hr2)]

/-- Membership in the idempotency set after the Phase 2 creation loop: the
initial members plus the GUID of every matched message whose interaction
creation succeeded. -/
lemma message_sync_loop_mem (ok : Interaction → Bool)
    (l : List (Message × Nat)) (s : Finset String) (c : Nat) (g : String) :
    g ∈ (message_sync_loop ok l s c).1 ↔
      g ∈ s ∨ ∃ p ∈ l, ok (message_interaction p.1 p.2) = true ∧
        p.1.guid = g := by
  induction l generalizing s c with
  | nil => simp [message_sync_loop]
  | cons p rest ih =>
    obtain ⟨m, cid⟩ := p
    by_cases h : ok (message_interaction m cid) = true
    · rw [show message_sync_loop ok ((m, cid) :: rest) s c =
        message_sync_loop ok rest (insert m.guid s) (c + 1) from by
          simp [message_sync_loop, h]]
      rw [ih]
      simp only [Finset.mem_insert, List.exists_mem_cons_iff, h, true_and]
      constructor
      · rintro ((hg | hg) | hg)
        · exact Or.inr (Or.inl hg.symm)
        · exact Or.inl hg
        · exact Or.inr (Or.inr hg)
      · rintro (hg | hg | hg)
        · exact Or.inl (Or.inr hg)
        · exact Or.inl (Or.inl hg.symm)
        · exact Or.inr hg
    · rw [show message_sync_loop ok ((m, cid) :: rest) s c =
        message_sync_loop ok rest s c from by simp [message_sync_loop, h]]
      rw [ih]
      simp only [List.exists_mem_cons_iff, h]
      simp

/-- The Phase 2 creation loop counts exactly the successful creations and
processes the entire batch. -/
lemma message_sync_loop_count (ok : Interaction → Bool)
    (l : List (Message × Nat)) (s : Finset String) (c : Nat) :
    (message_sync_loop ok l s c).2 =
      c + (l.filter (fun p => ok (message_interaction p.1 p.2))).length := by
  induction l generalizing s c with
  | nil => simp [message_sync_loop]
  | cons p rest ih =>
    obtain ⟨m, cid⟩ := p
    by_cases h : ok (message_interaction m cid) = true
    · rw [show message_sync_loop ok ((m, cid) :: rest) s c =
        message_sync_loop ok rest (insert m.guid s) (c + 1) from by
          simp [message_sync_loop, h]]
      rw [ih]
      simp only [List.filter_cons, h, if_true]
      simp
      omega
    · rw [show message_sync_loop ok ((m, cid) :: rest) s c =
        message_sync_loop ok rest s c from by simp [message_sync_loop, h]]
      rw [ih]
      simp only [List.filter_cons, h]
      simp

/-- Membership in the idempotency set after the Phase 3 creation loop. -/
lemma call_sync_loop_mem (ok : Interaction → Bool)
    (l : List (CallRecord × Nat)) (s : Finset Int) (c : Nat) (g : Int) :
    g ∈ (call_sync_loop ok l s c).1 ↔
      g ∈ s ∨ ∃ p ∈ l, ok (call_interaction p.1 p.2) = true ∧
        p.1.rowid = g := by
  induction l generalizing s c with
  | nil => simp [call_sync_loop]
  | cons p rest ih =>
    obtain ⟨cr, cid⟩ := p
    by_cases h : ok (call_interaction cr cid) = true
    · rw [show call_sync_loop ok ((cr, cid) :: rest) s c =
        call_sync_loop ok rest (insert cr.rowid s) (c + 1) from by
          simp [call_sync_loop, h]]
      rw [ih]
      simp only [Finset.mem_insert, List.exists_mem_cons_iff, h, true_and]
      constructor
      · rintro ((hg | hg) | hg)
        · exact Or.inr (Or.inl hg.symm)
        · exact Or.inl hg
        · exact Or.inr (Or.inr hg)
      · rintro (hg | hg | hg)
        · exact Or.inl (Or.inr hg)
        · exact Or.inl (Or.inl hg.symm)
        · exact Or.inr hg
    · rw [show call_sync_loop ok ((cr, cid) :: rest) s c =
        call_sync_loop ok rest s c from by simp [call_sync_loop, h]]
      rw [ih]
      simp only [List.exists_mem_cons_iff, h]
      simp

/-- The Phase 3 creation loop counts exactly the successful creations. -/
lemma call_sync_loop_count (ok : Interaction → Bool)
    (l : List (CallRecord × Nat)) (s : Finset Int) (c : Nat) :
    (call_sync_loop ok l s c).2 =
      c + (l.filter (fun p => ok (call_interaction p.1 p.2))).length := by
  induction l generalizing s c with
  | nil => simp [call_sync_loop]
  | cons p rest ih =>
    obtain ⟨cr, cid⟩ := p
    by_cases h : ok (call_interaction cr cid) = true
    · rw [show call_sync_loop ok ((cr, cid) :: rest) s c =
        call_sync_loop ok rest (insert cr.rowid s) (c + 1) from by
          simp [call_sync_loop, h]]
      rw [ih]
      simp only [List.filter_cons, h, if_true]
      simp
      omega
    · rw [show call_sync_loop ok ((cr, cid) :: rest) s c =
        call_sync_loop ok rest s c from by simp [call_sync_loop, h]]
      rw [ih]
      simp only [List.filter_cons, h]
      simp

/-- C1: `read_messages` yields no message whose GUID is excluded and
`read_calls` yields no call whose ROWID is excluded; consequently a Phase 2
or Phase 3 run over a source whose every identifier is already in the
idempotency set sees no records, matches nothing, attempts no interaction
creation, creates no unknown contact and reports zero synced. -/
theorem C1_sources_exclude_synced :
    (∀ (rows : List MsgRow) (since : Int) (excl : Finset String)
      (m : Message), m ∈ read_messages rows since excl → m.guid ∉ excl) ∧
    (∀ (rows : List CallRow) (since : Int) (excl : Finset Int)
      (c : CallRecord), c ∈ read_calls rows since excl → c.rowid ∉ excl) ∧
    (∀ (P : Type) (lib : PhoneLib P) (default_region : String) (cu : Bool)
      (create : String → Option Nat) (ok : Interaction → Bool)
      (state : SyncState) (rows : List MsgRow) (since : Int) (dry ko : Bool),
      (∀ r ∈ rows, r.guid ∈ state.synced_message_guids) →
      (_sync_messages lib default_region cu create ok state rows since
        dry ko).messages = [] ∧
      (_sync_messages lib default_region cu create ok state rows since
        dry ko).matched = [] ∧
      (_sync_messages lib default_region cu create ok state rows since
        dry ko).create_calls = [] ∧
      (_sync_messages lib default_region cu create ok state rows since
        dry ko).interaction_attempts = 0 ∧
      (_sync_messages lib default_region cu create ok state rows since
        dry ko).messages_synced = 0) ∧
    (∀ (P : Type) (lib : PhoneLib P) (default_region : String) (cu : Bool)
      (create : String → Option Nat) (ok : Interaction → Bool)
      (state : SyncState) (rows : List CallRow) (since : Int) (dry ko : Bool),
      (∀ r ∈ rows, r.rowid ∈ state.synced_call_ids) →
      (_sync_calls lib default_region cu create ok state rows since
        dry ko).calls = [] ∧
      (_sync_calls lib default_region cu create ok state rows since
        dry ko).matched = [] ∧
      (_sync_calls lib default_region cu create ok state rows since
        dry ko).create_calls = [] ∧
      (_sync_calls lib default_region cu create ok state rows since
        dry ko).interaction_attempts = 0 ∧
      (_sync_calls lib default_region cu create ok state rows since
        dry ko).calls_synced = 0) := by
  refine ⟨read_messages_excludes, read_calls_excludes, ?_, ?_⟩
  · intro P lib default_region cu create ok state rows since dry ko h
    have hread := read_messages_all_excluded rows since
      state.synced_message_guids h
    cases dry <;>
      simp [_sync_messages, hread, messages_matched0,
        messages_unmatched_handles, message_sync_loop]
  · intro P lib default_region cu create ok state rows since dry ko h
    have hread := read_calls_all_excluded rows since state.synced_call_ids h
    cases dry <;>
      simp [_sync_calls, hread, calls_matched0, calls_unmatched_phones,
        call_sync_loop]

/-- C1 witness: the exclusion theorem applied to a concrete one-row source,
and the rerun consequence applied when that row's GUID is already synced. -/
theorem C1_sources_exclude_synced_witness :
    ("g1" ∉ (∅ : Finset String)) ∧
    (_sync_messages demoLib "US" true (fun _ => some 7) (fun _ => true)
      c1state [c1row] 0 false false).matched = [] ∧
    (_sync_messages demoLib "US" true (fun _ => some 7) (fun _ => true)
      c1state [c1row] 0 false false).messages_synced = 0 :=
  ⟨C1_sources_exclude_synced.1 [c1row] 0 ∅ c1msg (by decide),
    (C1_sources_exclude_synced.2.2.1 Unit demoLib "US" true (fun _ => some 7)
      (fun _ => true) c1state [c1row] 0 false false (by decide)).2.1,
    (C1_sources_exclude_synced.2.2.1 Unit demoLib "US" true (fun _ => some 7)
      (fun _ => true) c1state [c1row] 0 false false (by decide)).2.2.2.2⟩

/-- In non-preview mode the Phase 2 outcome's idempotency set and count come
from the creation loop over its matched batch (definitional unfolding). -/
lemma sync_messages_nondry (P : Type) (lib : PhoneLib P)
    (default_region : String) (cu : Bool) (create : String → Option Nat)
    (ok : Interaction → Bool) (state : SyncState) (rows : List MsgRow)
    (since : Int) (ko : Bool) :
    (_sync_messages lib default_region cu create ok state rows since
        false ko).synced_message_guids =
      (message_sync_loop ok (_sync_messages lib default_region cu create ok
        state rows since false ko).matched state.synced_message_guids 0).1 ∧
    (_sync_messages lib default_region cu create ok state rows since
        false ko).messages_synced =
      (message_sync_loop ok (_sync_messages lib default_region cu create ok
        state rows since false ko).matched state.synced_message_guids 0).2 :=
  ⟨rfl, rfl⟩

/-- In non-preview mode the Phase 3 outcome's idempotency set and count come
from the creation loop over its matched batch. -/
lemma sync_calls_nondry (P : Type) (lib : PhoneLib P)
    (default_region : String) (cu : Bool) (create : String → Option Nat)
    (ok : Interaction → Bool) (state : SyncState) (rows : List CallRow)
    (since : Int) (ko : Bool) :
    (_sync_calls lib default_region cu create ok state rows since
        false ko).synced_call_ids =
      (call_sync_loop ok (_sync_calls lib default_region cu create ok
        state rows since false ko).matched state.synced_call_ids 0).1 ∧
    (_sync_calls lib default_region cu create ok state rows since
        false ko).calls_synced =
      (call_sync_loop ok (_sync_calls lib default_region cu create ok
        state rows since false ko).matched state.synced_call_ids 0).2 :=
  ⟨rfl, rfl⟩

/-- C4: in non-preview Phases 2 and 3, the final idempotency set holds
exactly the initial members plus the identifier of every matched record whose
interaction creation succeeded — so a failing record's identifier is not
added — and the synced counter counts the successes over the whole matched
batch, so a failure aborts neither the batch nor the run. -/
theorem C4_per_record_idempotency_update :
    (∀ (P : Type) (lib : PhoneLib P) (default_region : String) (cu : Bool)
      (create : String → Option Nat) (ok : Interaction → Bool)
      (state : SyncState) (rows : List MsgRow) (since : Int) (ko : Bool),
      (∀ g, g ∈ (_sync_messages lib default_region cu create ok state rows
          since false ko).synced_message_guids ↔
        g ∈ state.synced_message_guids ∨
          ∃ p ∈ (_sync_messages lib default_region cu create ok state rows
            since false ko).matched,
            ok (message_interaction p.1 p.2) = true ∧ p.1.guid = g) ∧
      (_sync_messages lib default_region cu create ok state rows since
          false ko).messages_synced =
        ((_sync_messages lib default_region cu create ok state rows since
          false ko).matched.filter
            (fun p => ok (message_interaction p.1 p.2))).length) ∧
    (∀ (P : Type) (lib : PhoneLib P) (default_region : String) (cu : Bool)
      (create : String → Option Nat) (ok : Interaction → Bool)
      (state : SyncState) (rows : List CallRow) (since : Int) (ko : Bool),
      (∀ g, g ∈ (_sync_calls lib default_region cu create ok state rows
          since false ko).synced_call_ids ↔
        g ∈ state.synced_call_ids ∨
          ∃ p ∈ (_sync_calls lib default_region cu create ok state rows
            since false ko).matched,
            ok (call_interaction p.1 p.2) = true ∧ p.1.rowid = g) ∧
      (_sync_calls lib default_region cu create ok state rows since
          false ko).calls_synced =
        ((_sync_calls lib default_region cu create ok state rows since
          false ko).matched.filter
            (fun p => ok (call_interaction p.1 p.2))).length) := by
  constructor
  · intro P lib default_region cu create ok state rows since ko
    constructor
    · intro g
      rw [(sync_messages_nondry P lib default_region cu create ok state rows
        since ko).1, message_sync_loop_mem]
    · rw [(sync_messages_nondry P lib default_region cu create ok state rows
        since ko).2, message_sync_loop_count]
      omega
  · intro P lib default_region cu create ok state rows since ko
    constructor
    · intro g
      rw [(sync_calls_nondry P lib default_region cu create ok state rows
        since ko).1, call_sync_loop_mem]
    · rw [(sync_calls_nondry P lib default_region cu create ok state rows
        since ko).2, call_sync_loop_count]
      omega

/-- One `_create_unknown_contact` call is made per handle, in order: the
creation-call list pairs each handle with its creation result. -/
lemma message_fanin_creation_list (create : String → Option Nat)
    (messages : List Message) (hs : List String) :
    (message_unknown_fanin create messages hs).1 =
      hs.map (fun h => (h, create h)) := by
  induction hs with
  | nil => rfl
  | cons a rest ih =>
    simp only [message_unknown_fanin]
    match hc : create a with
    | none => simp [hc, ih]
    | some cid =>
      by_cases h0 : (cid != 0) = true <;> simp [hc, h0, ih]

/-- A successfully created nonzero contact ID re-matches every message of
the batch sharing the handle. -/
lemma message_fanin_attach (create : String → Option Nat)
    (messages : List Message) (hs : List String) (h : String) (cid : Nat)
    (m : Message) (hh : h ∈ hs) (hc : create h = some cid) (h0 : cid ≠ 0)
    (hm : m ∈ messages) (hhm : m.handle = h) :
    (m, cid) ∈ (message_unknown_fanin create messages hs).2.1 := by
  induction hs with
  | nil => cases hh
  | cons a rest ih =>
    rcases List.mem_cons.mp hh with rfl | hh2
    · have h0b : (cid != 0) = true := by simpa using h0
      simp only [message_unknown_fanin, hc, h0b, if_true]
      apply List.mem_append_left
      exact List.mem_map.mpr ⟨m, List.mem_filter.mpr ⟨hm, by simp [hhm]⟩, rfl⟩
    · have hrest := ih hh2
      simp only [message_unknown_fanin]
      match hca : create a with
      | none => exact hrest
      | some cid2 =>
        by_cases h02 : (cid2 != 0) = true
        · simp only [hca, h02, if_true]
          exact List.mem_append_right _ hrest
        · simp only [hca, h02, if_false]
          exact hrest

/-- Phase 3 version of `message_fanin_creation_list`. -/
lemma call_fanin_creation_list (create : String → Option Nat)
    (calls : List CallRecord) (hs : List String) :
    (call_unknown_fanin create calls hs).1 =
      hs.map (fun h => (h, create h)) := by
  induction hs with
  | nil => rfl
  | cons a rest ih =>
    simp only [call_unknown_fanin]
    match hc : create a with
    | none => simp [hc, ih]
    | some cid =>
      by_cases h0 : (cid != 0) = true <;> simp [hc, h0, ih]

/-- Phase 3 version of `message_fanin_attach`. -/
lemma call_fanin_attach (create : String → Option Nat)
    (calls : List CallRecord) (hs : List String) (h : String) (cid : Nat)
    (c : CallRecord) (hh : h ∈ hs) (hc : create h = some cid) (h0 : cid ≠ 0)
    (hm : c ∈ calls) (hhm : c.phone = h) :
    (c, cid) ∈ (call_unknown_fanin create calls hs).2.1 := by
  induction hs with
  | nil => cases hh
  | cons a rest ih =>
    rcases List.mem_cons.mp hh with rfl | hh2
    · have h0b : (cid != 0) = true := by simpa using h0
      simp only [call_unknown_fanin, hc, h0b, if_true]
      apply List.mem_append_left
      exact List.mem_map.mpr ⟨c, List.mem_filter.mpr ⟨hm, by simp [hhm]⟩, rfl⟩
    · have hrest := ih hh2
      simp only [call_unknown_fanin]
      match hca : create a with
      | none => exact hrest
      | some cid2 =>
        by_cases h02 : (cid2 != 0) = true
        · simp only [hca, h02, if_true]
          exact List.mem_append_right _ hrest
        · simp only [hca, h02, if_false]
          exact hrest

/-- C7 counterexample: the unknown-contact creation for the only unmatched
handle succeeds and returns contact ID 0, yet the matching record is NOT
attached to it (`if contact_id:` treats 0 as a failure), contradicting the
claim that on successful creation every record sharing the handle is
attached to the created contact. -/
theorem C7_fanout_counterexample :
    (_sync_messages nolib "US" true (fun _ => some 0) (fun _ => true)
      emptyState [c5row] 0 false false).create_calls =
        [("5551234", some 0)] ∧
    (_sync_messages nolib "US" true (fun _ => some 0) (fun _ => true)
      emptyState [c5row] 0 false false).matched = [] ∧
    (_sync_messages nolib "US" true (fun _ => some 0) (fun _ => true)
      emptyState [c5row] 0 false false).contacts_unknown = 0 := by
  refine ⟨?_, ?_, ?_⟩ <;> decide

/-- C7 amended: with unknown-contact creation active (non-preview, not
known-only, enabled), unmatched records are grouped by distinct handle,
exactly one placeholder-contact creation is attempted per distinct unmatched
handle, and when a creation returns a NONZERO contact ID every record of the
batch sharing that handle is attached to that same new contact ID within the
run (a creation returning ID 0 is treated as a failure by Python
truthiness). -/
theorem C7_unknown_fanout_amended :
    (∀ (P : Type) (lib : PhoneLib P) (default_region : String)
      (create : String → Option Nat) (ok : Interaction → Bool)
      (state : SyncState) (rows : List MsgRow) (since : Int),
      ((_sync_messages lib default_region true create ok state rows since
          false false).create_calls.map Prod.fst =
        (_sync_messages lib default_region true create ok state rows since
          false false).unmatched_handles ∧
        (_sync_messages lib default_region true create ok state rows since
          false false).unmatched_handles.Nodup) ∧
      (∀ h cid m, h ∈ (_sync_messages lib default_region true create ok state
          rows since false false).unmatched_handles →
        create h = some cid → cid ≠ 0 →
        m ∈ (_sync_messages lib default_region true create ok state rows
          since false false).messages →
        m.handle = h →
        (m, cid) ∈ (_sync_messages lib default_region true create ok state
          rows since false false).matched)) ∧
    (∀ (P : Type) (lib : PhoneLib P) (default_region : String)
      (create : String → Option Nat) (ok : Interaction → Bool)
      (state : SyncState) (rows : List CallRow) (since : Int),
      ((_sync_calls lib default_region true create ok state rows since
          false false).create_calls.map Prod.fst =
        (_sync_calls lib default_region true create ok state rows since
          false false).unmatched_phones ∧
        (_sync_calls lib default_region true create ok state rows since
          false false).unmatched_phones.Nodup) ∧
      (∀ h cid c, h ∈ (_sync_calls lib default_region true create ok state
          rows since false false).unmatched_phones →
        create h = some cid → cid ≠ 0 →
        c ∈ (_sync_calls lib default_region true create ok state rows since
          false false).calls →
        c.phone = h →
        (c, cid) ∈ (_sync_calls lib default_region true create ok state rows
          since false false).matched)) := by
  constructor
  · intro P lib default_region create ok state rows since
    by_cases hemp : messages_unmatched_handles lib default_region state
        (read_messages rows since state.synced_message_guids) = []
    · constructor
      · constructor
        · simp [_sync_messages, hemp]
        · simp [_sync_messages, hemp]
      · intro h cid m hh hc h0 hm hhm
        have : h ∈ messages_unmatched_handles lib default_region state
            (read_messages rows since state.synced_message_guids) := hh
        rw [hemp] at this
        cases this
    · have hne : (messages_unmatched_handles lib default_region state
          (read_messages rows since state.synced_message_guids)).isEmpty =
            false := by
        simpa [List.isEmpty_iff] using hemp
      constructor
      · constructor
        · simp only [_sync_messages, hne]
          simp [message_fanin_creation_list, List.map_map, Function.comp]
          exact List.map_id' _
        · exact List.nodup_dedup _
      · intro h cid m hh hc h0 hm hhm
        have hmem := message_fanin_attach create
          (read_messages rows since state.synced_message_guids)
          (messages_unmatched_handles lib default_region state
            (read_messages rows since state.synced_message_guids))
          h cid m hh hc h0 hm hhm
        simp only [_sync_messages, hne]
        simp only [Bool.not_false, Bool.and_true, Bool.not_true,
          Bool.and_false, if_true]
        exact List.mem_append_right _ hmem
  · intro P lib default_region create ok state rows since
    by_cases hemp : calls_unmatched_phones lib default_region state
        (read_calls rows since state.synced_call_ids) = []
    · constructor
      · constructor
        · simp [_sync_calls, hemp]
        · simp [_sync_calls, hemp]
      · intro h cid c hh hc h0 hm hhm
        have : h ∈ calls_unmatched_phones lib default_region state
            (read_calls rows since state.synced_call_ids) := hh
        rw [hemp] at this
        cases this
    · have hne : (calls_unmatched_phones lib default_region state
          (read_calls rows since state.synced_call_ids)).isEmpty = false := by
        simpa [List.isEmpty_iff] using hemp
      constructor
      · constructor
        · simp only [_sync_calls, hne]
          simp [call_fanin_creation_list, List.map_map, Function.comp]
          exact List.map_id' _
        · exact List.nodup_dedup _
      · intro h cid c hh hc h0 hm hhm
        have hmem := call_fanin_attach create
          (read_calls rows since state.synced_call_ids)
          (calls_unmatched_phones lib default_region state
            (read_calls rows since state.synced_call_ids))
          h cid c hh hc h0 hm hhm
        simp only [_sync_calls, hne]
        simp only [Bool.not_false, Bool.and_true, Bool.not_true,
          Bool.and_false, if_true]
        exact List.mem_append_right _ hmem

/-- C7 witness: the amended theorem attaches the concrete unmatched message
to the concretely created contact 7. -/
theorem C7_unknown_fanout_amended_witness :
    (c5msg, 7) ∈ (_sync_messages nolib "US" true (fun _ => some 7)
      (fun _ => true) emptyState [c5row] 0 false false).matched :=
  (C7_unknown_fanout_amended.1 Unit nolib "US" (fun _ => some 7)
    (fun _ => true) emptyState [c5row] 0).2 "5551234" 7 c5msg (by decide) rfl
    (by decide) (by decide) rfl

/-- C5 counterexample: over one unmatched message with unknown-contact
creation enabled and succeeding, a dry run reports 0 message interactions
while a non-dry run over the same input attempts 1 (the fan-in record), so
the reported count does not equal the attempted count. -/
theorem C5_dry_run_counterexample :
    (_sync_messages nolib "US" true (fun _ => some 7) (fun _ => true)
      emptyState [c5row] 0 true false).messages_synced = 0 ∧
    (_sync_messages nolib "US" true (fun _ => some 7) (fun _ => true)
      emptyState [c5row] 0 false false).interaction_attempts = 1 := by
  refine ⟨?_, ?_⟩ <;> decide

/-- C5 amended: a dry run never saves state, performs no unknown-contact
creation and no interaction creation, leaves the idempotency set untouched,
and reports for each phase the count of records matched through the existing
identity maps; that reported count equals the creations a non-dry run would
attempt whenever no unknown-contact fan-in can occur (known-only mode, or
creation disabled, or no unmatched handles) — with fan-in, the non-dry run
attempts more.  Phase 1 counts always agree. -/
theorem C5_dry_run_amended :
    main_saves_state true = false ∧
    (∀ (P : Type) (lib : PhoneLib P) (default_region : String) (cu : Bool)
      (create : String → Option Nat) (ok : Interaction → Bool)
      (state : SyncState) (rows : List MsgRow) (since : Int) (ko : Bool),
      (_sync_messages lib default_region cu create ok state rows since
        true ko).create_calls = [] ∧
      (_sync_messages lib default_region cu create ok state rows since
        true ko).interaction_attempts = 0 ∧
      (_sync_messages lib default_region cu create ok state rows since
        true ko).synced_message_guids = state.synced_message_guids ∧
      (_sync_messages lib default_region cu create ok state rows since
        true ko).messages_synced =
        (_sync_messages lib default_region cu create ok state rows since
          true ko).matched0.length ∧
      ((ko = true ∨ cu = false ∨
          (_sync_messages lib default_region cu create ok state rows since
            true ko).unmatched_handles = []) →
        (_sync_messages lib default_region cu create ok state rows since
          false ko).interaction_attempts =
        (_sync_messages lib default_region cu create ok state rows since
          true ko).messages_synced)) ∧
    (∀ (P : Type) (lib : PhoneLib P) (default_region : String) (cu : Bool)
      (create : String → Option Nat) (ok : Interaction → Bool)
      (state : SyncState) (rows : List CallRow) (since : Int) (ko : Bool),
      (_sync_calls lib default_region cu create ok state rows since
        true ko).create_calls = [] ∧
      (_sync_calls lib default_region cu create ok state rows since
        true ko).interaction_attempts = 0 ∧
      (_sync_calls lib default_region cu create ok state rows since
        true ko).synced_call_ids = state.synced_call_ids ∧
      (_sync_calls lib default_region cu create ok state rows since
        true ko).calls_synced =
        (_sync_calls lib default_region cu create ok state rows since
          true ko).matched0.length ∧
      ((ko = true ∨ cu = false ∨
          (_sync_calls lib default_region cu create ok state rows since
            true ko).unmatched_phones = []) →
        (_sync_calls lib default_region cu create ok state rows since
          false ko).interaction_attempts =
        (_sync_calls lib default_region cu create ok state rows since
          true ko).calls_synced)) ∧
    (∀ (P : Type) (lib : PhoneLib P) (default_region : String)
      (pmap emap : String → Option Nat) (locals : List LocalContact),
      contacts_creation_attempts lib default_region pmap emap locals true
        = [] ∧
      contacts_dry_report lib default_region pmap emap locals =
        (contacts_creation_attempts lib default_region pmap emap locals
          false).length) := by
  refine ⟨rfl, ?_, ?_, ?_⟩
  · intro P lib default_region cu create ok state rows since ko
    refine ⟨?_, ?_, ?_, ?_, ?_⟩
    · simp [_sync_messages]
    · simp [_sync_messages]
    · simp [_sync_messages]
    · simp [_sync_messages]
    · intro hcond
      rcases hcond with hko | hcu | hum
      · subst hko
        simp [_sync_messages]
      · subst hcu
        simp [_sync_messages]
      · have h2 : messages_unmatched_handles lib default_region state
            (read_messages rows since state.synced_message_guids) = [] := hum
        simp [_sync_messages, h2]
  · intro P lib default_region cu create ok state rows since ko
    refine ⟨?_, ?_, ?_, ?_, ?_⟩
    · simp [_sync_calls]
    · simp [_sync_calls]
    · simp [_sync_calls]
    · simp [_sync_calls]
    · intro hcond
      rcases hcond with hko | hcu | hum
      · subst hko
        simp [_sync_calls]
      · subst hcu
        simp [_sync_calls]
      · have h2 : calls_unmatched_phones lib default_region state
            (read_calls rows since state.synced_call_ids) = [] := hum
        simp [_sync_calls, h2]
  · intro P lib default_region pmap emap locals
    exact ⟨rfl, rfl⟩

/-- C5 witness: the amended theorem applied in known-only mode, where the
dry-run report equals the non-dry-run attempt count. -/
theorem C5_dry_run_amended_witness :
    (_sync_messages nolib "US" true (fun _ => some 7) (fun _ => true)
      emptyState [c5row] 0 true true).create_calls = [] ∧
    (_sync_messages nolib "US" true (fun _ => some 7) (fun _ => true)
      emptyState [c5row] 0 false true).interaction_attempts =
      (_sync_messages nolib "US" true (fun _ => some 7) (fun _ => true)
        emptyState [c5row] 0 true true).messages_synced :=
  ⟨(C5_dry_run_amended.2.1 Unit nolib "US" true (fun _ => some 7)
      (fun _ => true) emptyState [c5row] 0 true).1,
    (C5_dry_run_amended.2.1 Unit nolib "US" true (fun _ => some 7)
      (fun _ => true) emptyState [c5row] 0 true).2.2.2.2 (Or.inl rfl)⟩

/-- Propositional reading of the per-phone duplicate test. -/
lemma phone_is_dup_iff {P : Type} (lib : PhoneLib P) (default_region : String)
    (pmap : String → Option Nat) (ph : String) :
    phone_is_dup lib default_region pmap ph = true ↔
      (∃ k, normalize_phone lib (some ph) default_region = some k ∧ k ≠ "" ∧
        (pmap k).isSome = true) ∨
      (∃ s, strip_phone_formatting (some ph) = some s ∧ s ≠ "" ∧
        (pmap s).isSome = true) := by
  unfold phone_is_dup
  rcases hn : normalize_phone lib (some ph) default_region with _ | k <;>
    rcases hs : strip_phone_formatting (some ph) with _ | s <;>
      simp [hn, hs, and_assoc]

/-- Propositional reading of the full duplicate test. -/
lemma is_duplicate_iff {P : Type} (lib : PhoneLib P) (default_region : String)
    (pmap emap : String → Option Nat) (lc : LocalContact) :
    is_duplicate lib default_region pmap emap lc = true ↔
      (∃ ph ∈ lc.phones,
        (∃ k, normalize_phone lib (some ph) default_region = some k ∧
          k ≠ "" ∧ (pmap k).isSome = true) ∨
        (∃ s, strip_phone_formatting (some ph) = some s ∧ s ≠ "" ∧
          (pmap s).isSome = true)) ∨
      (∃ em ∈ lc.emails, (emap (pyLower em)).isSome = true) := by
  unfold is_duplicate
  simp [List.any_eq_true, phone_is_dup_iff]

/-- A changed entry of a one-key dictionary update is that key, holding the
new value. -/
lemma mapInsert_ne (m : String → Option Nat) (k : String) (v : Nat)
    (x : String) (h : mapInsert m k v x ≠ m x) :
    x = k ∧ mapInsert m k v x = some v := by
  by_cases hx : x = k
  · subst hx
    simp [mapInsert]
  · exact absurd (by simp [mapInsert, hx]) h

/-- Both keys of a double dictionary update with a common value read back
that value. -/
lemma mapInsert_both (m : String → Option Nat) (k s : String) (v : Nat) :
    mapInsert (mapInsert m k v) s v k = some v ∧
    mapInsert (mapInsert m k v) s v s = some v := by
  constructor
  · by_cases hks : k = s <;> simp [mapInsert, hks]
  · simp [mapInsert]

/-- C3: a local contact is classified existing (duplicate) exactly when any
raw phone resolves via the canonical or stripped key or any raw email
resolves via the lower-cased key; a contact with no first name, no last name
and no (truthy) organization is never queued — when additionally not a
duplicate it is skipped; and a contact with empty names but a nonempty
organization that is not a duplicate is queued with the organization in the
first-name field. -/
theorem C3_contact_classification :
    ∀ (P : Type) (lib : PhoneLib P) (default_region : String)
      (pmap emap : String → Option Nat) (lc : LocalContact),
    (classify_local lib default_region pmap emap lc = ContactClass.existing ↔
      (∃ ph ∈ lc.phones,
        (∃ k, normalize_phone lib (some ph) default_region = some k ∧
          k ≠ "" ∧ (pmap k).isSome = true) ∨
        (∃ s, strip_phone_formatting (some ph) = some s ∧ s ≠ "" ∧
          (pmap s).isSome = true)) ∨
      (∃ em ∈ lc.emails, (emap (pyLower em)).isSome = true)) ∧
    (lc.first_name.getD "" = "" → lc.last_name.getD "" = "" →
      strTruthy lc.organization = false →
      (∀ c, classify_local lib default_region pmap emap lc ≠
        ContactClass.queued c) ∧
      (classify_local lib default_region pmap emap lc =
          ContactClass.existing ∨
        classify_local lib default_region pmap emap lc =
          ContactClass.skipped)) ∧
    (lc.first_name.getD "" = "" → lc.last_name.getD "" = "" →
      ∀ o, lc.organization = some o → o ≠ "" →
      classify_local lib default_region pmap emap lc ≠
        ContactClass.existing →
      classify_local lib default_region pmap emap lc =
        ContactClass.queued
          { first_name := o
            last_name := ""
            phone := primary_phone lib default_region lc.phones
            email := lc.emails.head?
            organization := lc.organization
            notes := lc.notes }) := by
  intro P lib default_region pmap emap lc
  refine ⟨?_, ?_, ?_⟩
  · rw [show (classify_local lib default_region pmap emap lc =
        ContactClass.existing ↔
        is_duplicate lib default_region pmap emap lc = true) from ?_]
    · exact is_duplicate_iff lib default_region pmap emap lc
    · unfold classify_local
      by_cases hdup : is_duplicate lib default_region pmap emap lc = true
      · simp [hdup]
      · rw [if_neg hdup]
        constructor
        · intro h
          split at h <;> exact absurd h (by simp)
        · intro h
          exact absurd h hdup
  · intro h1 h2 h3
    unfold classify_local
    by_cases hdup : is_duplicate lib default_region pmap emap lc = true
    · simp [hdup]
    · have hpair : contact_first_last lc = ("", "") := by
        unfold contact_first_last
        simp [h1, h2, h3]
      simp [hdup, hpair]
  · intro h1 h2 o ho hone hnotex
    have hdup : ¬ is_duplicate lib default_region pmap emap lc = true := by
      intro hd
      exact hnotex (by simp [classify_local, hd])
    have horg : strTruthy (some o) = true := by
      simp [strTruthy, hone]
    have hpair : contact_first_last lc = (o, "") := by
      unfold contact_first_last
      simp [h1, h2, ho, horg]
    simp [classify_local, hdup, hpair, hone]

/-- C3 witness: the organization-only contact is queued with the
organization promoted into the first-name field. -/
theorem C3_contact_classification_witness :
    classify_local nolib "US" (fun _ => none) (fun _ => none) c3lc =
      ContactClass.queued
        { first_name := "Acme", last_name := "", phone := none,
          email := none, organization := some "Acme", notes := none } :=
  (C3_contact_classification Unit nolib "US" (fun _ => none) (fun _ => none)
    c3lc).2.2 rfl rfl "Acme" rfl (by decide) (by decide)

/-- C10: registering a Phase 1-created contact adds at most the canonical
E.164 key of its phone (value: the new contact's ID) and the lower-cased
email key; if the phone does not normalize the phone map is unchanged — in
contrast, remote-contact registration and unknown-contact registration write
both the canonical and the stripped key. -/
theorem C10_created_contact_key_registration :
    ∀ (P : Type) (lib : PhoneLib P) (default_region : String) (c : Contact)
      (pmap emap : String → Option Nat),
    (∀ k, (register_created_contact lib default_region c pmap emap).1 k ≠
        pmap k →
      ∃ ph, c.phone = some ph ∧
        normalize_phone lib (some ph) default_region = some k ∧
        (register_created_contact lib default_region c pmap emap).1 k =
          some c.id) ∧
    ((∀ ph, c.phone = some ph → ph ≠ "" →
        normalize_phone lib (some ph) default_region = none) →
      (register_created_contact lib default_region c pmap emap).1 = pmap) ∧
    (∀ k, (register_created_contact lib default_region c pmap emap).2 k ≠
        emap k →
      ∃ em, c.email = some em ∧ k = pyLower em ∧
        (register_created_contact lib default_region c pmap emap).2 k =
          some c.id) ∧
    (∀ ph k s, c.phone = some ph → ph ≠ "" →
      normalize_phone lib (some ph) default_region = some k → k ≠ "" →
      strip_phone_formatting (some ph) = some s →
      ((register_remote_contact lib default_region c pmap emap).1 k =
          some c.id ∧
        (register_remote_contact lib default_region c pmap emap).1 s =
          some c.id) ∧
      ((register_unknown_contact_keys lib default_region c pmap emap).1 k =
          some c.id ∧
        (register_unknown_contact_keys lib default_region c pmap emap).1 s =
          some c.id)) := by
  intro P lib default_region c pmap emap
  refine ⟨?_, ?_, ?_, ?_⟩
  · intro k hk
    rcases hph : c.phone with _ | ph
    · exact absurd (show (register_created_contact lib default_region c pmap
        emap).1 k = pmap k from by simp [register_created_contact, hph]) hk
    · by_cases hpe : ph = ""
      · exact absurd (show (register_created_contact lib default_region c
          pmap emap).1 k = pmap k from by
            simp [register_created_contact, hph, hpe]) hk
      · rcases hn : normalize_phone lib (some ph) default_region with _ | k2
        · exact absurd (show (register_created_contact lib default_region c
            pmap emap).1 k = pmap k from by
              simp [register_created_contact, hph, hpe, hn]) hk
        · by_cases hk2 : k2 = ""
          · exact absurd (show (register_created_contact lib default_region c
              pmap emap).1 k = pmap k from by
                simp [register_created_contact, hph, hpe, hn, hk2]) hk
          · have hred : (register_created_contact lib default_region c pmap
                emap).1 = mapInsert pmap k2 c.id := by
              simp [register_created_contact, hph, hpe, hn, hk2]
            rw [hred] at hk
            obtain ⟨hkk, hv⟩ := mapInsert_ne pmap k2 c.id k hk
            subst hkk
            exact ⟨ph, rfl, hn, by rw [hred, hv]⟩
  · intro hno
    rcases hph : c.phone with _ | ph
    · simp [register_created_contact, hph]
    · by_cases hpe : ph = ""
      · simp [register_created_contact, hph, hpe]
      · have hn := hno ph hph hpe
        simp [register_created_contact, hph, hpe, hn]
  · intro k hk
    rcases hem : c.email with _ | em
    · exact absurd (show (register_created_contact lib default_region c pmap
        emap).2 k = emap k from by simp [register_created_contact, hem]) hk
    · by_cases hee : em = ""
      · exact absurd (show (register_created_contact lib default_region c
          pmap emap).2 k = emap k from by
            simp [register_created_contact, hem, hee]) hk
      · have hred : (register_created_contact lib default_region c pmap
            emap).2 = mapInsert emap (pyLower em) c.id := by
          simp [register_created_contact, hem, hee]
        rw [hred] at hk
        obtain ⟨hkk, hv⟩ := mapInsert_ne emap (pyLower em) c.id k hk
        exact ⟨em, rfl, hkk, by rw [hred, hv]⟩
  · intro ph k s hph hph0 hn hk hs
    have hs0 := (strip_some_ne (some ph) s hs).1
    have hred1 : (register_remote_contact lib default_region c pmap emap).1 =
        mapInsert (mapInsert pmap k c.id) s c.id := by
      simp [register_remote_contact, hph, hph0, hn, hk, hs, hs0]
    have hred2 : (register_unknown_contact_keys lib default_region c pmap
        emap).1 = mapInsert (mapInsert pmap k c.id) s c.id := by
      simp [register_unknown_contact_keys, hph, hph0, hn, hk, hs, hs0]
    rw [hred1, hred2]
    exact ⟨mapInsert_both pmap k s c.id, mapInsert_both pmap k s c.id⟩

/-- C10 witness: remote-contact registration writes both the canonical and
the stripped key for a concrete contact. -/
theorem C10_created_contact_key_registration_witness :
    (register_remote_contact demoLib "US" c10c (fun _ => none)
      (fun _ => none)).1 "+19025551234" = some 9 ∧
    (register_remote_contact demoLib "US" c10c (fun _ => none)
      (fun _ => none)).1 "9025551234" = some 9 :=
  have h := (C10_created_contact_key_registration Unit demoLib "US" c10c
    (fun _ => none) (fun _ => none)).2.2.2 "(902) 555-1234" "+19025551234"
    "9025551234" rfl (by decide) (by decide) (by decide) (by decide)
  ⟨h.1.1, h.1.2⟩

end CrmSync

